import Mathlib

/-!
Verification of the whisp-away local transcription daemon subsystem.

Shallow embedding of the Rust sources: strings are `List Char`, filesystem
and process effects are explicit event traces, fallible operations return
`Except String`.  Each section names the source file and function it embeds.
-/

namespace WhispAway

/-! ### Transport protocol: `TranscriptionResponse` (src/whisper_cpp/daemon.rs, lines 32-39)

The daemon serializes the response with serde_json; field order is the
struct order (`success`, `text`, `error`) and `None` fields are skipped
(`skip_serializing_if = "Option::is_none"`). -/

structure TranscriptionResponse where
  success : Bool
  text : Option (List Char)
  error : Option (List Char)
deriving DecidableEq

/-- One hex digit as serde_json prints it (lowercase). -/
def jsonHexDigit (n : Nat) : Char :=
  if n < 10 then Char.ofNat (48 + n) else Char.ofNat (87 + n)

/-- serde_json escaping of a single character inside a JSON string:
`"` and `\` get a backslash, the control characters BS, FF, LF, CR, TAB get
their short forms, the remaining control characters become `\u00XX`. -/
def jsonEscapeChar (c : Char) : List Char :=
  if c = '"' then ['\\', '"']
  else if c = '\\' then ['\\', '\\']
  else if c = '\x08' then ['\\', 'b']
  else if c = '\x0c' then ['\\', 'f']
  else if c = '\n' then ['\\', 'n']
  else if c = '\r' then ['\\', 'r']
  else if c = '\t' then ['\\', 't']
  else if c.toNat < 32 then
    ['\\', 'u', '0', '0', jsonHexDigit (c.toNat / 16), jsonHexDigit (c.toNat % 16)]
  else [c]

def jsonEscape (s : List Char) : List Char :=
  (s.map jsonEscapeChar).flatten

/-- serde_json encoding of a `TranscriptionResponse`
(`serde_json::to_string`, as written by `handle_connection`). -/
def encodeResponse (r : TranscriptionResponse) : List Char :=
  "\x7b\"success\":".toList
    ++ (if r.success then "true".toList else "false".toList)
    ++ (match r.text with
        | some t => ",\"text\":\"".toList ++ jsonEscape t ++ ['"']
        | none => [])
    ++ (match r.error with
        | some e => ",\"error\":\"".toList ++ jsonEscape e ++ ['"']
        | none => [])
    ++ ['\x7d']

/-! ### Client-side ad-hoc decoding (src/socket.rs, lines 27 and 66-84) -/

/-- Rust `str::contains` on our character lists. -/
def containsSub (n : List Char) : List Char → Bool
  | [] => n.isEmpty
  | c :: t => n.isPrefixOf (c :: t) || containsSub n t

/-- Rust `str::find` (byte index of the first occurrence); on the ASCII
needles used here byte indices and character indices coincide. -/
def findSub (n : List Char) : List Char → Option Nat
  | [] => if n.isEmpty then some 0 else none
  | c :: t => if n.isPrefixOf (c :: t) then some 0 else (findSub n t).map (· + 1)

/-- socket.rs line 27: the client's success check. -/
def responseSuccess (r : List Char) : Bool :=
  containsSub "\"success\":true".toList r || containsSub "\"success\": true".toList r

/-- socket.rs `extract_text_from_response` (lines 66-84): find `"text":`,
skip 7 bytes, trim leading whitespace, expect an opening quote, then take
everything up to the next `"` — with no un-escaping. -/
def extract_text_from_response (r : List Char) : Option (List Char) :=
  match findSub "\"text\":".toList r with
  | some i =>
    let afterText := r.drop (i + 7)
    let contentStart := afterText.dropWhile Char.isWhitespace
    match contentStart with
    | '"' :: textContent =>
      match findSub ['"'] textContent with
      | some j => some (textContent.take j)
      | none => none
    | _ => none
  | none => none

/-- Characters that serde_json passes through unescaped. -/
def jsonPlainChar (c : Char) : Bool :=
  !(c = '"' : Bool) && !(c = '\\' : Bool) && !(c.toNat < 32 : Bool)

def jsonPlain (s : List Char) : Bool :=
  s.all jsonPlainChar

lemma jsonEscapeChar_plain {c : Char} (h : jsonPlainChar c = true) :
    jsonEscapeChar c = [c] := by
  simp only [jsonPlainChar, Bool.and_eq_true, Bool.not_eq_true', decide_eq_false_iff_not,
    decide_eq_true_eq] at h
  obtain ⟨⟨h1, h2⟩, h3⟩ := h
  have h8 : c ≠ '\x08' := fun e => h3 (by simp [e])
  have hc : c ≠ '\x0c' := fun e => h3 (by simp [e])
  have hn : c ≠ '\n' := fun e => h3 (by simp [e])
  have hr : c ≠ '\r' := fun e => h3 (by simp [e])
  have ht : c ≠ '\t' := fun e => h3 (by simp [e])
  simp [jsonEscapeChar, h1, h2, h8, hc, hn, hr, ht, h3]

lemma jsonEscape_plain {t : List Char} (h : jsonPlain t = true) :
    jsonEscape t = t := by
  induction t with
  | nil => rfl
  | cons c cs ih =>
    simp only [jsonPlain, List.all_cons, Bool.and_eq_true] at h
    simp [jsonEscape, jsonEscapeChar_plain h.1]
    simpa [jsonEscape] using ih h.2

lemma findSub_quote {t : List Char} (r : List Char) (h : ∀ c ∈ t, c ≠ '"') :
    findSub ['"'] (t ++ '"' :: r) = some t.length := by
  induction t with
  | nil =>
    simp [findSub, List.isPrefixOf]
  | cons c cs ih =>
    have hc : c ≠ '"' := h c (List.mem_cons_self c cs)
    have hpre : List.isPrefixOf ['"'] (c :: (cs ++ '"' :: r)) = false := by
      simp [List.isPrefixOf]
      exact fun e => hc e.symm
    simp only [List.cons_append, findSub, List.append_eq, hpre, Bool.false_eq_true, if_false]
    rw [ih (fun x hx => h x (List.mem_cons_of_mem c hx))]
    simp [List.length_cons]

/-- The fixed 24-character prefix of every success-with-text response,
`\x7b"success":true,"text":"`, with the first occurrence of the client's
needle `"text":` at index 16, whatever follows. -/
lemma findSub_text_needle (rest : List Char) :
    findSub "\"text\":".toList ("\x7b\"success\":true,\"text\":\"".toList ++ rest)
      = some 16 := rfl

lemma responseSuccess_of_prefix (rest : List Char) :
    responseSuccess ("\x7b\"success\":true,\"text\":\"".toList ++ rest) = true := rfl

lemma encodeResponse_true_text (t : List Char) :
    encodeResponse ⟨true, some t, none⟩
      = "\x7b\"success\":true,\"text\":\"".toList ++ (jsonEscape t ++ ['"', '\x7d']) := by
  simp [encodeResponse]

lemma extract_encode_plain {t : List Char} (h : jsonPlain t = true) :
    extract_text_from_response (encodeResponse ⟨true, some t, none⟩) = some t := by
  rw [encodeResponse_true_text, jsonEscape_plain h]
  have hq : ∀ c ∈ t, c ≠ '"' := by
    intro c hc e
    have := (List.all_eq_true.mp h) c hc
    simp [jsonPlainChar, e] at this
  unfold extract_text_from_response
  rw [findSub_text_needle]
  have hdrop :
      ("\x7b\"success\":true,\"text\":\"".toList ++ (t ++ ['"', '\x7d'])).drop 23
        = '"' :: (t ++ ['"', '\x7d']) := by
    have : "\x7b\"success\":true,\"text\":\"".toList
        = "\x7b\"success\":true,\"text\":".toList ++ ['"'] := by rfl
    rw [this, List.append_assoc]
    have hlen : ("\x7b\"success\":true,\"text\":".toList).length = 23 := by rfl
    rw [← hlen, List.drop_left]
    rfl
  simp only [hdrop]
  have hws : ('"' :: (t ++ ['"', '\x7d'])).dropWhile Char.isWhitespace
      = '"' :: (t ++ ['"', '\x7d']) := by
    rw [List.dropWhile_cons_of_neg]
    decide
  simp only [hws]
  have : t ++ ['"', '\x7d'] = t ++ '"' :: ['\x7d'] := rfl
  rw [this, findSub_quote ['\x7d'] hq]
  simp [List.take_left]

/-- C3: this claim states that decoding recovers `success`, `text` and
`error` exactly for every response the daemon can encode, including texts
containing quotes and escapes.  It fails: `extract_text_from_response`
performs no un-escaping, so the text `a"b`, encoded by serde_json as
`"text":"a\"b"`, decodes to `a\` instead.  This closed theorem exhibits the
mis-decoding at that concrete response. -/
theorem C3_quote_text_not_recovered :
    encodeResponse ⟨true, some ['a', '"', 'b'], none⟩
      = "\x7b\"success\":true,\"text\":\"a\\\"b\"\x7d".toList ∧
    extract_text_from_response (encodeResponse ⟨true, some ['a', '"', 'b'], none⟩)
      = some ['a', '\\'] ∧
    extract_text_from_response (encodeResponse ⟨true, some ['a', '"', 'b'], none⟩)
      ≠ some ['a', '"', 'b'] := by
  decide

/-- C3 (amended): the round-trip law holds only on the escape-free fragment:
for every response with `success = true` and a text containing no quote, no
backslash and no control character, the client's ad-hoc decoding recovers the
success flag and the exact text.  (The `error` field is never decoded by the
client at all — `send_transcription_request` only branches on the success
substring — and texts needing JSON escaping are mis-decoded, as the
counterexample shows.) -/
theorem C3_round_trip_plain_fragment (t : List Char) (h : jsonPlain t = true) :
    responseSuccess (encodeResponse ⟨true, some t, none⟩) = true ∧
    extract_text_from_response (encodeResponse ⟨true, some t, none⟩) = some t := by
  refine ⟨?_, extract_encode_plain h⟩
  rw [encodeResponse_true_text]
  exact responseSuccess_of_prefix _

/-- Witness for C3's amended theorem at the concrete text `hello world`. -/
theorem C3_round_trip_plain_fragment_witness :
    jsonPlain "hello world".toList = true ∧
    (responseSuccess (encodeResponse ⟨true, some "hello world".toList, none⟩) = true ∧
     extract_text_from_response (encodeResponse ⟨true, some "hello world".toList, none⟩)
       = some "hello world".toList) :=
  ⟨by decide, C3_round_trip_plain_fragment _ (by decide)⟩

/-! ### Daemon server: per-connection handling
(src/whisper_cpp/daemon.rs `handle_connection`, lines 184-239)

Shallow embedding: the serde_json parse of the received bytes is represented
by its result (`none` = malformed bytes), the filesystem by the two facts the
function queries (existence and size of the audio file), and the inference
capability by its result.  The function returns its `Result` together with
the list of responses written to the stream before the connection closes.
On a malformed request the `?` on `serde_json::from_str` propagates the
error before any write; on a transcription error the `?` on
`transcribe_audio` likewise propagates before any write. -/

structure TranscriptionRequest where
  audio_path : List Char
deriving DecidableEq

def handle_connection (decoded : Option TranscriptionRequest)
    (fileExists : Bool) (fileSize : Nat)
    (transcription : Except (List Char) (List Char)) :
    Except (List Char) Unit × List (List Char) :=
  match decoded with
  | none => (.error "Failed to parse request".toList, [])
  | some req =>
    if !fileExists then
      (.ok (), [encodeResponse
        ⟨false, none, some ("Audio file not found: ".toList ++ req.audio_path)⟩])
    else if fileSize ≤ 44 then
      (.ok (), [encodeResponse ⟨true, some [], none⟩])
    else
      match transcription with
      | .ok text => (.ok (), [encodeResponse ⟨true, some text, none⟩])
      | .error e => (.error e, [])

/-- C7: the claim states that a connection whose bytes fail to decode gets a
structured `success=false` response before the connection closes.  It fails:
`handle_connection` propagates the parse error with `?` before any write, so
the connection closes with no response at all (the error is only logged by
the accept loop).  Concrete failing connection: any undecodable payload, an
existing audio file of 100 bytes, a working inference capability — the write
list is empty. -/
theorem C7_malformed_request_gets_no_response :
    (handle_connection none true 100 (.ok "ok".toList)).2 = [] ∧
    (handle_connection none true 100 (.ok "ok".toList)).1
      = .error "Failed to parse request".toList :=
  ⟨rfl, rfl⟩

/-- C7 (amended): on a malformed request the daemon writes nothing and closes
the connection, returning the parse error to the connection handler (which
only logs it); the structured `success=false` response is written only for a
well-formed request whose audio file is missing. -/
theorem C7_malformed_closes_silently (fileExists : Bool) (fileSize : Nat)
    (transcription : Except (List Char) (List Char)) (req : TranscriptionRequest) :
    (handle_connection none fileExists fileSize transcription).2 = [] ∧
    (handle_connection none fileExists fileSize transcription).1
      = .error "Failed to parse request".toList ∧
    (handle_connection (some req) false fileSize transcription).2
      = [encodeResponse
          ⟨false, none, some ("Audio file not found: ".toList ++ req.audio_path)⟩] := by
  refine ⟨rfl, rfl, ?_⟩
  simp [handle_connection]

/-! ### Configuration resolution (src/helpers.rs, lines 34-101) -/

structure TrayState where
  model : List Char
  backend : List Char
deriving DecidableEq

/-- helpers.rs `resolve_model` (lines 82-96): command-line argument, then
persisted tray state, then the `WA_WHISPER_MODEL` environment variable, then
the default `"base.en"`. -/
def resolve_model (arg : Option (List Char)) (trayState : Option TrayState)
    (envModel : Option (List Char)) : List Char :=
  match arg with
  | some m => m
  | none =>
    match trayState with
    | some st => st.model
    | none => envModel.getD "base.en".toList

/-- helpers.rs `get_acceleration_type` (lines 99-101). -/
def get_acceleration_type (envAccel : Option (List Char)) : List Char :=
  envAccel.getD "unknown".toList

/-! ### Client request/fallback controller
(src/whisper_cpp/client.rs, src/faster_whisper/client.rs, src/socket.rs,
src/typing.rs)

Shallow embedding: one invocation of the CLI `stop` path is a linear,
single-threaded sequence of effects.  The external collaborators are
represented by their observable outcomes in a `ClientWorld`, and the
controller produces its `Result` plus an ordered trace of the effects it
performs (notifications, text injection, artifact deletion, fallback
invocation).  The fallback transcription itself is an opaque external
capability; the trace records its invocation with the model it was handed,
and the world supplies its outcome. -/

inductive CEvent
  | notify (title body : List Char)
  | typeText (text : List Char)
  | removeFile (path : List Char)
  | runFallbackCpp (model : List Char) (bindings : Bool)
  | runFallbackFw (model : List Char)
deriving DecidableEq

/-- Rust `str::trim` on character lists. -/
def trimChars (s : List Char) : List Char :=
  ((s.dropWhile Char.isWhitespace).reverse.dropWhile Char.isWhitespace).reverse

/-- typing.rs `type_text` (lines 5-39): an empty or whitespace-only text is
reported as "No speech detected" (a warning notification, not an error);
otherwise the text is injected and a success notification shown. -/
def type_text (text : List Char) (backendName : List Char) : List CEvent :=
  if (trimChars text).isEmpty then
    [.notify "Voice Input".toList ("⚠️ No speech detected\nBackend: ".toList ++ backendName)]
  else
    [.typeText (trimChars text),
     .notify "Voice Input".toList ("✅ Transcribed\nBackend: ".toList ++ backendName)]

/-- The transport-level outcome of one daemon request as the client observes
it: connect, write or read can fail, or a full response body arrives. -/
inductive TransportOutcome
  | connectFail (e : List Char)
  | writeFail
  | readFail
  | response (r : List Char)
deriving DecidableEq

def TransportOutcome.isFailure : TransportOutcome → Bool
  | .response _ => false
  | _ => true

/-- The daemon-connection error string the caller receives, per socket.rs:
the connect failure embeds the OS error, the write/read failures surface
their `context` message. -/
def TransportOutcome.errMsg : TransportOutcome → List Char
  | .connectFail e => "Failed to connect to daemon: ".toList ++ e
  | .writeFail => "Failed to send request to daemon".toList
  | .readFail => "Failed to read response from daemon".toList
  | .response _ => []

/-- socket.rs `send_transcription_request` (lines 8-63): on a received
response, branch on the success substring; parse out the text and hand it to
`type_text`, or show the could-not-parse warning; on `success=false` show the
failure notification; each transport failure is returned as an error with no
events. -/
def send_transcription_request (transport : TransportOutcome)
    (backendName : List Char) : Except (List Char) Unit × List CEvent :=
  match transport with
  | .connectFail e => (.error ("Failed to connect to daemon: ".toList ++ e), [])
  | .writeFail => (.error "Failed to send request to daemon".toList, [])
  | .readFail => (.error "Failed to read response from daemon".toList, [])
  | .response r =>
    if responseSuccess r then
      match extract_text_from_response r with
      | some t =>
        (.ok (), type_text (trimChars t) (backendName ++ " daemon".toList))
      | none =>
        (.ok (), [.notify "Voice Input".toList
          ("⚠️ Could not parse response\nBackend: ".toList ++ backendName)])
    else
      (.ok (), [.notify "Voice Input".toList
        ("❌ Transcription failed\nBackend: ".toList ++ backendName)])

/-- The outcomes of the external collaborators consulted by one `stop`
invocation. -/
structure ClientWorld where
  recording : Option (List Char)
  fileExists : Bool
  metadataOk : Bool
  fileSize : Nat
  transport : TransportOutcome
  fallbackResult : Except (List Char) Unit
  trayState : Option TrayState
  envModel : Option (List Char)
  envAccel : Option (List Char)

def fallbackWrap (e err : List Char) : List Char :=
  "Fallback transcription failed (daemon was: ".toList ++ e ++ "): ".toList ++ err

/-- src/whisper_cpp/client.rs `stop_and_transcribe_daemon` (lines 8-115). -/
def cpp_stop_and_transcribe_daemon (w : ClientWorld) (modelArg : Option (List Char))
    (bindings : Bool) : Except (List Char) Unit × List CEvent :=
  match w.recording with
  | none =>
    (.ok (), [.notify "Voice Input (whisper.cpp daemon)".toList "❌ No recording found".toList])
  | some audioFile =>
    if !w.fileExists then
      (.ok (), [.notify "Voice Input (whisper.cpp daemon)".toList "❌ No audio recorded".toList])
    else if w.metadataOk && decide (w.fileSize ≤ 44) then
      (.ok (), [.notify "Voice Input".toList "❌ Audio file is empty\nBackend: whisper-cpp".toList,
                .removeFile audioFile])
    else
      let resolvedModel := resolve_model modelArg w.trayState w.envModel
      let accel := get_acceleration_type w.envAccel
      let transcribing : CEvent := .notify "Voice Input".toList
        ("⏳ Transcribing...\nBackend: whisper-cpp (".toList ++ accel
          ++ ") | Model: ".toList ++ resolvedModel)
      match send_transcription_request w.transport "whisper-cpp".toList with
      | (.ok _, evs) => (.ok (), transcribing :: evs ++ [.removeFile audioFile])
      | (.error e, evs) =>
        let fbMsg : List Char :=
          if bindings then
            "⚠️ Daemon not running, using fallback\nBackend: whisper-cpp (bindings) | Model: ".toList
              ++ resolvedModel
          else
            "⚠️ Daemon not running, using fallback\nBackend: whisper-cpp (CLI) | Model: ".toList
              ++ resolvedModel
        let result : Except (List Char) Unit :=
          match w.fallbackResult with
          | .ok _ => .ok ()
          | .error err => .error (fallbackWrap e err)
        (result, transcribing :: evs
          ++ [.notify "Voice Input".toList fbMsg,
              .runFallbackCpp resolvedModel bindings,
              .removeFile audioFile])

/-- src/faster_whisper/client.rs `stop_and_transcribe_daemon` (lines 8-89).
Note line 80: the fallback hands `transcribe_with_faster_whisper` the string
literal `"base.en"`, not the resolved model. -/
def fw_stop_and_transcribe_daemon (w : ClientWorld) :
    Except (List Char) Unit × List CEvent :=
  match w.recording with
  | none =>
    (.ok (), [.notify "Voice Input (daemon)".toList "❌ No recording found".toList])
  | some audioFile =>
    if !w.fileExists then
      (.ok (), [.notify "Voice Input".toList "❌ No audio recorded\nBackend: faster-whisper".toList])
    else if w.metadataOk && decide (w.fileSize ≤ 44) then
      (.ok (), [.notify "Voice Input".toList "❌ Audio file is empty\nBackend: faster-whisper".toList,
                .removeFile audioFile])
    else
      let model := resolve_model none w.trayState w.envModel
      let accel := get_acceleration_type w.envAccel
      let transcribing : CEvent := .notify "Voice Input".toList
        ("⏳ Transcribing...\nBackend: faster-whisper (".toList ++ accel
          ++ ") | Model: ".toList ++ model)
      match send_transcription_request w.transport "faster-whisper".toList with
      | (.ok _, evs) => (.ok (), transcribing :: evs ++ [.removeFile audioFile])
      | (.error e, evs) =>
        let result : Except (List Char) Unit :=
          match w.fallbackResult with
          | .ok _ => .ok ()
          | .error err => .error (fallbackWrap e err)
        (result, transcribing :: evs
          ++ [.notify "Voice Input (daemon)".toList "⚠️ Daemon not running, using direct mode".toList,
              .runFallbackFw "base.en".toList,
              .removeFile audioFile])

lemma type_text_no_remove (t b a : List Char) :
    (type_text t b).count (CEvent.removeFile a) = 0 := by
  unfold type_text
  split <;> simp

lemma send_no_remove (tr : TransportOutcome) (b a : List Char) :
    (send_transcription_request tr b).2.count (CEvent.removeFile a) = 0 := by
  unfold send_transcription_request
  rcases tr with e | _ | _ | r <;> simp
  split
  · split
    · exact type_text_no_remove _ _ _
    · simp
  · simp

lemma send_isFailure (tr : TransportOutcome) (b : List Char) (h : tr.isFailure = true) :
    (send_transcription_request tr b).1 = .error tr.errMsg := by
  rcases tr with e | _ | _ | r <;>
    simp [send_transcription_request, TransportOutcome.errMsg, TransportOutcome.isFailure] at h ⊢

/-- C1: if the transport fails (cannot connect, write or read), the
whisper-cpp client controller transitions to `Fallback` and performs the
direct transcription; and on every terminal path past the empty-file guard —
daemon success, daemon-reported failure, unparseable response, or fallback
success or failure — the audio artifact is deleted exactly once before the
controller returns. -/
theorem C1_transport_failure_fallback_single_delete
    (w : ClientWorld) (modelArg : Option (List Char)) (bindings : Bool) (audio : List Char)
    (hrec : w.recording = some audio) (hex : w.fileExists = true)
    (hbig : w.metadataOk = false ∨ 44 < w.fileSize) :
    (cpp_stop_and_transcribe_daemon w modelArg bindings).2.count (CEvent.removeFile audio) = 1
    ∧ (w.transport.isFailure = true →
        CEvent.runFallbackCpp (resolve_model modelArg w.trayState w.envModel) bindings
          ∈ (cpp_stop_and_transcribe_daemon w modelArg bindings).2) := by
  have hguard : (w.metadataOk && decide (w.fileSize ≤ 44)) = false := by
    rcases hbig with h | h
    · simp [h]
    · have hn : ¬ w.fileSize ≤ 44 := by omega
      simp [hn]
  constructor
  · rcases hsend : send_transcription_request w.transport "whisper-cpp".toList with ⟨res, evs⟩
    have hevs : evs.count (CEvent.removeFile audio) = 0 := by
      have h0 := send_no_remove w.transport "whisper-cpp".toList audio
      rw [hsend] at h0
      exact h0
    simp at hsend
    rcases res with e | u <;>
      simp [cpp_stop_and_transcribe_daemon, hrec, hex, hguard, hsend,
        List.count_cons, List.count_append, hevs]
  · intro hfail
    have hres := send_isFailure w.transport "whisper-cpp".toList hfail
    rcases hsend : send_transcription_request w.transport "whisper-cpp".toList with ⟨res, evs⟩
    rw [hsend] at hres
    simp only at hres
    subst hres
    simp at hsend
    simp [cpp_stop_and_transcribe_daemon, hrec, hex, hguard, hsend]

/-- A concrete invocation for C1: a 4444-byte recording, no listener on the
socket, and a fallback that itself fails. -/
def c1World : ClientWorld :=
  { recording := some "/tmp/voice-recording-1.wav".toList
    fileExists := true
    metadataOk := true
    fileSize := 4444
    transport := .connectFail "No such file or directory".toList
    fallbackResult := .error "model not found".toList
    trayState := none
    envModel := none
    envAccel := none }

/-- Witness for C1 at `c1World`. -/
theorem C1_transport_failure_fallback_single_delete_witness :
    (cpp_stop_and_transcribe_daemon c1World none true).2.count
        (CEvent.removeFile "/tmp/voice-recording-1.wav".toList) = 1
    ∧ (c1World.transport.isFailure = true →
        CEvent.runFallbackCpp (resolve_model none c1World.trayState c1World.envModel) true
          ∈ (cpp_stop_and_transcribe_daemon c1World none true).2) :=
  C1_transport_failure_fallback_single_delete c1World none true
    "/tmp/voice-recording-1.wav".toList rfl rfl (Or.inr (by decide))

/-- A concrete world for C2's counterexample: an artifact of exactly the
44-byte header size. -/
def emptyFileWorld : ClientWorld :=
  { recording := some "/tmp/voice-recording-1.wav".toList
    fileExists := true
    metadataOk := true
    fileSize := 44
    transport := .response []
    fallbackResult := .ok ()
    trayState := none
    envModel := none
    envAccel := none }

/-- C2: the claim states that for a file of at most 44 bytes neither path
produces an error or an error-styled notification.  It fails on the client
side: both clients short-circuit with the notification
`❌ Audio file is empty` — an error-styled (`❌`-prefixed) notification —
and never produce an empty-text success.  Concrete failing input: a 44-byte
artifact. -/
theorem C2_empty_file_error_notification :
    (cpp_stop_and_transcribe_daemon emptyFileWorld none true).2
      = [CEvent.notify "Voice Input".toList
           "❌ Audio file is empty\nBackend: whisper-cpp".toList,
         CEvent.removeFile "/tmp/voice-recording-1.wav".toList]
    ∧ (fw_stop_and_transcribe_daemon emptyFileWorld).2
      = [CEvent.notify "Voice Input".toList
           "❌ Audio file is empty\nBackend: faster-whisper".toList,
         CEvent.removeFile "/tmp/voice-recording-1.wav".toList]
    ∧ List.isPrefixOf "❌".toList "❌ Audio file is empty\nBackend: whisper-cpp".toList
      = true := by
  decide

/-- C2 (amended): for every audio artifact of at most 44 bytes, the daemon
replies `success=true` with empty text and no error, and both clients return
success (`Ok`) without attempting transcription, deleting the artifact; but
the clients emit the error-styled `❌ Audio file is empty` notification
rather than an empty-text success. -/
theorem C2_empty_file_amended (req : TranscriptionRequest) (size : Nat)
    (transcription : Except (List Char) (List Char)) (w : ClientWorld) (audio : List Char)
    (hsize : size ≤ 44) (hrec : w.recording = some audio) (hex : w.fileExists = true)
    (hmeta : w.metadataOk = true) (hwsize : w.fileSize ≤ 44) :
    handle_connection (some req) true size transcription
      = (.ok (), [encodeResponse ⟨true, some [], none⟩])
    ∧ cpp_stop_and_transcribe_daemon w none true
      = (.ok (), [CEvent.notify "Voice Input".toList
                    "❌ Audio file is empty\nBackend: whisper-cpp".toList,
                  CEvent.removeFile audio])
    ∧ fw_stop_and_transcribe_daemon w
      = (.ok (), [CEvent.notify "Voice Input".toList
                    "❌ Audio file is empty\nBackend: faster-whisper".toList,
                  CEvent.removeFile audio]) := by
  refine ⟨?_, ?_, ?_⟩
  · simp [handle_connection, hsize]
  · simp [cpp_stop_and_transcribe_daemon, hrec, hex, hmeta, hwsize]
  · simp [fw_stop_and_transcribe_daemon, hrec, hex, hmeta, hwsize]

/-- Witness for C2's amended theorem at a 44-byte artifact. -/
theorem C2_empty_file_amended_witness :
    handle_connection (some ⟨"/tmp/voice-recording-1.wav".toList⟩) true 44 (.ok [])
      = (.ok (), [encodeResponse ⟨true, some [], none⟩])
    ∧ cpp_stop_and_transcribe_daemon emptyFileWorld none true
      = (.ok (), [CEvent.notify "Voice Input".toList
                    "❌ Audio file is empty\nBackend: whisper-cpp".toList,
                  CEvent.removeFile "/tmp/voice-recording-1.wav".toList])
    ∧ fw_stop_and_transcribe_daemon emptyFileWorld
      = (.ok (), [CEvent.notify "Voice Input".toList
                    "❌ Audio file is empty\nBackend: faster-whisper".toList,
                  CEvent.removeFile "/tmp/voice-recording-1.wav".toList]) :=
  C2_empty_file_amended ⟨"/tmp/voice-recording-1.wav".toList⟩ 44 (.ok [])
    emptyFileWorld "/tmp/voice-recording-1.wav".toList
    (by decide) rfl rfl rfl (by decide)

/-- A concrete world for C6's counterexample: the persisted tray state names
`medium.en`, yet the faster-whisper fallback runs with `base.en`. -/
def fwTrayWorld : ClientWorld :=
  { recording := some "/tmp/voice-recording-1.wav".toList
    fileExists := true
    metadataOk := true
    fileSize := 100
    transport := .connectFail "No such file or directory".toList
    fallbackResult := .ok ()
    trayState := some ⟨"medium.en".toList, "faster-whisper".toList⟩
    envModel := none
    envAccel := none }

/-- C6: the claim states that on transport failure both backends' fallbacks
use the resolved model configuration.  It fails for the faster-whisper
backend: client.rs line 80 passes the string literal `"base.en"` to the
fallback, ignoring the resolved model.  Concrete failing input: tray state
persisting `medium.en`; the fallback runs with `base.en`. -/
theorem C6_fw_fallback_ignores_resolved_model :
    resolve_model none fwTrayWorld.trayState fwTrayWorld.envModel = "medium.en".toList
    ∧ CEvent.runFallbackFw "base.en".toList ∈ (fw_stop_and_transcribe_daemon fwTrayWorld).2
    ∧ CEvent.runFallbackFw "medium.en".toList ∉ (fw_stop_and_transcribe_daemon fwTrayWorld).2 := by
  decide

/-- C6 (amended): on any transport-level failure the whisper-cpp fallback
uses the resolved model (argument, then tray state, then environment, then
default), while the faster-whisper fallback always uses the fixed model
`base.en`; in both backends, a failing fallback returns an error that wraps
the original daemon-connection error. -/
theorem C6_fallback_model_and_error_wrapping
    (w : ClientWorld) (modelArg : Option (List Char)) (bindings : Bool) (audio err : List Char)
    (hrec : w.recording = some audio) (hex : w.fileExists = true)
    (hbig : w.metadataOk = false ∨ 44 < w.fileSize)
    (hfail : w.transport.isFailure = true) :
    (CEvent.runFallbackCpp (resolve_model modelArg w.trayState w.envModel) bindings
        ∈ (cpp_stop_and_transcribe_daemon w modelArg bindings).2)
    ∧ (CEvent.runFallbackFw "base.en".toList ∈ (fw_stop_and_transcribe_daemon w).2)
    ∧ (w.fallbackResult = .error err →
        (cpp_stop_and_transcribe_daemon w modelArg bindings).1
          = .error (fallbackWrap w.transport.errMsg err)
        ∧ (fw_stop_and_transcribe_daemon w).1
          = .error (fallbackWrap w.transport.errMsg err)) := by
  have hguard : (w.metadataOk && decide (w.fileSize ≤ 44)) = false := by
    rcases hbig with h | h
    · simp [h]
    · have hn : ¬ w.fileSize ≤ 44 := by omega
      simp [hn]
  have hresC := send_isFailure w.transport "whisper-cpp".toList hfail
  have hresF := send_isFailure w.transport "faster-whisper".toList hfail
  rcases hsendC : send_transcription_request w.transport "whisper-cpp".toList with ⟨resC, evsC⟩
  rcases hsendF : send_transcription_request w.transport "faster-whisper".toList with ⟨resF, evsF⟩
  rw [hsendC] at hresC
  rw [hsendF] at hresF
  simp only at hresC hresF
  subst hresC
  subst hresF
  simp at hsendC hsendF
  refine ⟨?_, ?_, fun hfb => ⟨?_, ?_⟩⟩
  · simp [cpp_stop_and_transcribe_daemon, hrec, hex, hguard, hsendC]
  · simp [fw_stop_and_transcribe_daemon, hrec, hex, hguard, hsendF]
  · simp [cpp_stop_and_transcribe_daemon, hrec, hex, hguard, hsendC, hfb]
  · simp [fw_stop_and_transcribe_daemon, hrec, hex, hguard, hsendF, hfb]

/-- Witness for C6's amended theorem at `fwTrayWorld` with a failing
fallback. -/
def fwTrayWorldErr : ClientWorld :=
  { fwTrayWorld with fallbackResult := .error "model not found".toList }

theorem C6_fallback_model_and_error_wrapping_witness :
    (CEvent.runFallbackCpp (resolve_model none fwTrayWorldErr.trayState fwTrayWorldErr.envModel) true
        ∈ (cpp_stop_and_transcribe_daemon fwTrayWorldErr none true).2)
    ∧ (CEvent.runFallbackFw "base.en".toList ∈ (fw_stop_and_transcribe_daemon fwTrayWorldErr).2)
    ∧ (fwTrayWorldErr.fallbackResult = .error "model not found".toList →
        (cpp_stop_and_transcribe_daemon fwTrayWorldErr none true).1
          = .error (fallbackWrap fwTrayWorldErr.transport.errMsg "model not found".toList)
        ∧ (fw_stop_and_transcribe_daemon fwTrayWorldErr).1
          = .error (fallbackWrap fwTrayWorldErr.transport.errMsg "model not found".toList)) :=
  C6_fallback_model_and_error_wrapping fwTrayWorldErr none true
    "/tmp/voice-recording-1.wav".toList "model not found".toList
    rfl rfl (Or.inr (by decide)) rfl

/-! ### Process supervisor: child environment
(src/tray.rs `start_daemon_process`, lines 118-200)

Shallow embedding of `std::process::Command` environment semantics: a
spawned child inherits the parent's entire environment, and each
`cmd.env(k, v)` call inserts an explicit override.  `start_daemon_process`
never calls `env_clear`, so the child environment is the parent environment
plus the overrides.  The overrides are modelled in call order: the
backend-specific variables (tray.rs lines 131-139 and 175), `HOME` and
`WA_WHISPER_MODEL` (lines 179-180), then the loop copying the allow-listed
variables from the parent (lines 183-200). -/

abbrev Env := String → Option String

def allowListKeys : List String :=
  ["CUDA_VISIBLE_DEVICES", "CUDA_HOME", "CUDA_PATH",
   "LD_LIBRARY_PATH", "LIBRARY_PATH",
   "FASTER_WHISPER_PYTHON", "FASTER_WHISPER_PYTHONPATH",
   "FASTER_WHISPER_SCRIPT", "FASTER_WHISPER_DAEMON_SCRIPT",
   "WHISPER_CPP_PATH",
   "DISPLAY", "WAYLAND_DISPLAY", "XDG_RUNTIME_DIR"]

def envInsert (e : Env) (k v : String) : Env :=
  fun q => if q = k then some v else e q

/-- The explicit `cmd.env` calls made by `start_daemon_process`, in call
order. -/
def daemonEnvOverrides (daemonType model home socketPath : String) (parent : Env) :
    List (String × String) :=
  (if daemonType = "faster-whisper" then
    [("WA_WHISPER_SOCKET", socketPath)]
      ++ (if (parent "CUDA_VISIBLE_DEVICES").isSome then
            [("WHISPER_DEVICE", "cuda"), ("WHISPER_COMPUTE", "float16")]
          else
            [("WHISPER_DEVICE", "cpu"), ("WHISPER_COMPUTE", "int8")])
   else
    [("WHISPER_CPP_MODEL_PATH",
      home ++ "/.cache/whisper-cpp/models/ggml-" ++ model ++ ".bin")])
  ++ [("HOME", home), ("WA_WHISPER_MODEL", model)]
  ++ allowListKeys.filterMap (fun k => (parent k).map (fun v => (k, v)))

/-- The environment of the spawned daemon child: the parent environment
(inherited — `Command` without `env_clear`), updated by each explicit
`cmd.env` call in order. -/
def start_daemon_child_env (daemonType model : String) (parent : Env) : Env :=
  let home := (parent "HOME").getD ""
  let socketPath := (parent "WA_WHISPER_SOCKET").getD "/tmp/whisp-away-daemon.sock"
  (daemonEnvOverrides daemonType model home socketPath parent).foldl
    (fun e kv => envInsert e kv.1 kv.2) parent

/-- The keys `start_daemon_process` explicitly sets (beyond the allow-list
copy loop, which re-inserts parent values). -/
def supervisorSetKeys : List String :=
  ["HOME", "WA_WHISPER_MODEL", "WHISPER_CPP_MODEL_PATH",
   "WA_WHISPER_SOCKET", "WHISPER_DEVICE", "WHISPER_COMPUTE"]

lemma foldl_envInsert_preserved (l : List (String × String)) (e parent : Env) (k : String)
    (hl : ∀ kv ∈ l, kv.1 = k → some kv.2 = parent k) (he : e k = parent k) :
    (l.foldl (fun e kv => envInsert e kv.1 kv.2) e) k = parent k := by
  induction l generalizing e with
  | nil => simpa using he
  | cons kv rest ih =>
    refine ih _ (fun x hx => hl x (List.mem_cons_of_mem kv hx)) ?_
    by_cases hk : k = kv.1
    · simpa [envInsert, hk] using hl kv (List.mem_cons_self kv rest) hk.symm
    · simpa [envInsert, hk] using he

def envWithSecret : Env :=
  fun k => if k = "SECRET_VAR" then some "hunter2" else none

def envNoSecret : Env :=
  fun _ => none

/-- C4: the claim states that only the allow-listed and supervisor-set
variables reach the spawned daemon — for two supervisor environments that
differ only in a variable outside the allow-list, the children are
identical.  It fails: `Command::spawn` without `env_clear` makes the child
inherit the entire parent environment, and the allow-list loop merely
re-inserts values the child would inherit anyway.  Concrete input: two
environments that agree on every allow-listed and supervisor-set variable
and differ only in `SECRET_VAR`; the children differ at `SECRET_VAR`. -/
theorem C4_env_not_allow_listed :
    (allowListKeys ++ supervisorSetKeys).all
        (fun k => envWithSecret k == envNoSecret k) = true
    ∧ ("SECRET_VAR" ∈ allowListKeys ++ supervisorSetKeys) = False
    ∧ start_daemon_child_env "whisper-cpp" "base.en" envWithSecret "SECRET_VAR"
        = some "hunter2"
    ∧ start_daemon_child_env "whisper-cpp" "base.en" envNoSecret "SECRET_VAR" = none := by
  refine ⟨by decide, by simp [allowListKeys, supervisorSetKeys], by decide, by decide⟩

lemma mem_daemonEnvOverrides_key {daemonType model home socketPath : String} {parent : Env}
    {kv : String × String}
    (h : kv ∈ daemonEnvOverrides daemonType model home socketPath parent) :
    kv.1 ∈ supervisorSetKeys ∨ parent kv.1 = some kv.2 := by
  unfold daemonEnvOverrides at h
  simp only [List.mem_append] at h
  rcases h with (h | h) | h
  · left
    split at h
    · simp only [List.mem_append, List.mem_cons, List.mem_singleton,
        List.not_mem_nil, or_false] at h
      rcases h with h | h
      · rw [congrArg Prod.fst h]; simp [supervisorSetKeys]
      · split at h <;>
          simp only [List.mem_cons, List.mem_singleton, List.not_mem_nil, or_false] at h <;>
          rcases h with h | h <;> rw [congrArg Prod.fst h] <;> simp [supervisorSetKeys]
    · simp only [List.mem_singleton] at h
      rw [congrArg Prod.fst h]; simp [supervisorSetKeys]
  · left
    simp only [List.mem_cons, List.mem_singleton, List.not_mem_nil, or_false] at h
    rcases h with h | h <;> rw [congrArg Prod.fst h] <;> simp [supervisorSetKeys]
  · right
    obtain ⟨key, _, hmap⟩ := List.mem_filterMap.mp h
    rcases Option.map_eq_some'.mp hmap with ⟨v, hv, hpair⟩
    have hkey : key = kv.1 := congrArg Prod.fst hpair
    have hval : v = kv.2 := congrArg Prod.snd hpair
    rw [← hkey, hv, hval]

/-- C4 (amended): the child environment is the supervisor's entire
environment overridden by the explicitly set variables: every variable whose
key is not among the supervisor-set keys passes through to the child
unchanged — allow-listed or not.  (The allow-list loop only re-inserts
values already inherited.) -/
theorem C4_env_full_inheritance (daemonType model : String) (parent : Env) (k : String)
    (hk : k ∉ supervisorSetKeys) :
    start_daemon_child_env daemonType model parent k = parent k := by
  unfold start_daemon_child_env
  refine foldl_envInsert_preserved _ _ _ _ (fun kv hkv hkvk => ?_) rfl
  rcases mem_daemonEnvOverrides_key hkv with hmem | hval
  · exact absurd (hkvk ▸ hmem) hk
  · rw [← hkvk]
    exact hval.symm

/-- Witness for C4's amended theorem: the secret variable is inherited. -/
theorem C4_env_full_inheritance_witness :
    "SECRET_VAR" ∉ supervisorSetKeys
    ∧ start_daemon_child_env "whisper-cpp" "base.en" envWithSecret "SECRET_VAR"
        = envWithSecret "SECRET_VAR" :=
  ⟨by decide,
   C4_env_full_inheritance "whisper-cpp" "base.en" envWithSecret "SECRET_VAR" (by decide)⟩

/-! ### Process supervisor: shutdown
(src/tray.rs `stop_daemon_process`, lines 262-354)

Shallow embedding: the held handle is `none` or `some (pid, aliveAfterTerm)`
where `aliveAfterTerm` is the `try_wait` outcome observed after the SIGTERM
and the one-second grace sleep (`true` = still running, `Ok(None)`).  The
function's observable actions are returned as an ordered trace. -/

inductive SEvent
  | pkillPattern (pattern : String) (force : Bool)
  | signalGroup (pid : Nat) (sig : String)
  | killDirectChild
  | removeFile (path : String)
  | notifySent (body : String)
deriving DecidableEq

def stop_daemon_process (daemonType : String) (handle : Option (Nat × Bool)) :
    Except String Unit × List SEvent :=
  match handle with
  | none => (.ok (), [])
  | some (pid, aliveAfterTerm) =>
    let pre := if daemonType = "faster-whisper" then
        [SEvent.pkillPattern "whisper_daemon.py" false,
         SEvent.pkillPattern "/tmp/whisp-away-daemon.sock" false]
      else []
    let escalation := if aliveAfterTerm then
        [SEvent.signalGroup pid "SIGKILL", SEvent.killDirectChild]
          ++ (if daemonType = "faster-whisper" then
                [SEvent.pkillPattern "whisper_daemon.py" true]
              else [])
      else
        (if daemonType = "faster-whisper" then
          [SEvent.pkillPattern "whisper_daemon.py" false]
         else [])
    (.ok (),
      pre ++ [SEvent.signalGroup pid "SIGTERM"] ++ escalation
        ++ [SEvent.removeFile "/tmp/whisp-away-daemon.sock",
            SEvent.notifySent ("⏹️ " ++ daemonType ++ " daemon stopped")])

def SEvent.isPkill : SEvent → Bool
  | .pkillPattern _ _ => true
  | _ => false

def SEvent.isSignal : SEvent → Bool
  | .signalGroup _ _ => true
  | .killDirectChild => true
  | _ => false

/-- C5: the claim states that stopping an already-exited handle sends no
signals and still performs the pattern-based orphan-kill pass for both
backends.  It fails twice: tray.rs line 285 sends SIGTERM to the process
group unconditionally, before the liveness check; and for the whisper-cpp
backend no `pkill` pass exists anywhere in `stop_daemon_process`.  Concrete
failing input: backend whisper-cpp, held pid 1234, process already exited. -/
theorem C5_stop_exited_signals_and_no_pkill :
    (stop_daemon_process "whisper-cpp" (some (1234, false))).1 = .ok ()
    ∧ SEvent.signalGroup 1234 "SIGTERM" ∈ (stop_daemon_process "whisper-cpp" (some (1234, false))).2
    ∧ ((stop_daemon_process "whisper-cpp" (some (1234, false))).2.countP SEvent.isPkill) = 0 := by
  exact ⟨rfl, by decide, by decide⟩

/-- C5 (amended): stopping an already-exited handle returns success and
removes the socket file for both backends, but it unconditionally sends
SIGTERM to the process group first (no SIGKILL escalation follows), and the
pattern-based orphan-kill pass runs only for the faster-whisper backend. -/
theorem C5_stop_exited_amended (daemonType : String) (pid : Nat)
    (hb : daemonType = "whisper-cpp" ∨ daemonType = "faster-whisper") :
    (stop_daemon_process daemonType (some (pid, false))).1 = .ok ()
    ∧ SEvent.removeFile "/tmp/whisp-away-daemon.sock"
        ∈ (stop_daemon_process daemonType (some (pid, false))).2
    ∧ SEvent.signalGroup pid "SIGTERM" ∈ (stop_daemon_process daemonType (some (pid, false))).2
    ∧ SEvent.signalGroup pid "SIGKILL" ∉ (stop_daemon_process daemonType (some (pid, false))).2
    ∧ (daemonType = "faster-whisper" →
        SEvent.pkillPattern "whisper_daemon.py" false
          ∈ (stop_daemon_process daemonType (some (pid, false))).2)
    ∧ (daemonType = "whisper-cpp" →
        ((stop_daemon_process daemonType (some (pid, false))).2.countP SEvent.isPkill) = 0) := by
  rcases hb with hb | hb <;> subst hb <;>
    refine ⟨rfl, ?_, ?_, ?_, ?_, ?_⟩ <;>
    simp [stop_daemon_process, SEvent.isPkill, List.countP_cons]

/-- Witness for C5's amended theorem at backend whisper-cpp, pid 1234. -/
theorem C5_stop_exited_amended_witness :
    (stop_daemon_process "whisper-cpp" (some (1234, false))).1 = .ok ()
    ∧ SEvent.removeFile "/tmp/whisp-away-daemon.sock"
        ∈ (stop_daemon_process "whisper-cpp" (some (1234, false))).2
    ∧ SEvent.signalGroup 1234 "SIGTERM" ∈ (stop_daemon_process "whisper-cpp" (some (1234, false))).2
    ∧ SEvent.signalGroup 1234 "SIGKILL" ∉ (stop_daemon_process "whisper-cpp" (some (1234, false))).2
    ∧ ("whisper-cpp" = "faster-whisper" →
        SEvent.pkillPattern "whisper_daemon.py" false
          ∈ (stop_daemon_process "whisper-cpp" (some (1234, false))).2)
    ∧ ("whisper-cpp" = "whisper-cpp" →
        ((stop_daemon_process "whisper-cpp" (some (1234, false))).2.countP SEvent.isPkill) = 0) :=
  C5_stop_exited_amended "whisper-cpp" 1234 (Or.inl rfl)

/-! ### Tray state machine (src/tray.rs, lines 46-69, 462-497, 593-637)

Shallow embedding of the tray's observable state and its transitions.  Each
transition returns the new state and the ordered list of persisted-state
writes and daemon process operations it performs.  `save_state` (lines
62-69) writes the current model and backend via `write_tray_state`; it is
called from `VoiceInputTray::new` (line 55) and from the backend-switch menu
handler (line 620) — and nowhere else. -/

structure DaemonStatus where
  running : Bool
  model : String
  processing : Bool
deriving DecidableEq

structure TrayModel where
  status : DaemonStatus
  daemonType : String
deriving DecidableEq

inductive TEvent
  | writeState (model backend : String)
  | startProc
  | stopProc
deriving DecidableEq

def TEvent.isWriteState : TEvent → Bool
  | .writeState _ _ => true
  | _ => false

def save_state (t : TrayModel) : TEvent :=
  .writeState t.status.model t.daemonType

/-- `VoiceInputTray::new` (tray.rs lines 47-60): default status with the
resolved model, followed by the initial persisted-state write. -/
def tray_new (daemonType resolvedModel : String) : TrayModel × List TEvent :=
  let t : TrayModel := ⟨⟨false, resolvedModel, false⟩, daemonType⟩
  (t, [save_state t])

/-- `activate` (tray.rs lines 462-497): left-click toggles start/stop; the
status flags are updated only on success; `opOk` is the outcome of the
start/stop call. -/
def tray_activate (t : TrayModel) (opOk : Bool) : TrayModel × List TEvent :=
  if t.status.running then
    if opOk then
      (⟨⟨false, t.status.model, false⟩, t.daemonType⟩, [.stopProc])
    else (t, [.stopProc])
  else
    if opOk then
      (⟨⟨true, t.status.model, t.status.processing⟩, t.daemonType⟩, [.startProc])
    else (t, [.startProc])

def other_backend (d : String) : String :=
  if d = "faster-whisper" then "whisper-cpp" else "faster-whisper"

/-- The backend-switch menu handler (tray.rs lines 593-637): stop the
current daemon if running (aborting the switch if that fails), switch the
backend identity, persist the new state, then start the new daemon. -/
def tray_switch_backend (t : TrayModel) (stopOk startOk : Bool) :
    TrayModel × List TEvent :=
  if t.status.running && !stopOk then (t, [.stopProc])
  else
    let stopEvs := if t.status.running then [TEvent.stopProc] else []
    let st1 : DaemonStatus :=
      if t.status.running then ⟨false, t.status.model, false⟩ else t.status
    let t2 : TrayModel := ⟨st1, other_backend t.daemonType⟩
    let t3 : TrayModel :=
      if startOk then ⟨⟨true, st1.model, st1.processing⟩, t2.daemonType⟩ else t2
    (t3, stopEvs ++ [save_state t2, TEvent.startProc])

/-- C8: the claim states that every tray transition (start, stop, toggle,
backend switch) updates the persisted state record.  It fails: only tray
construction and the backend switch call `save_state`; the toggle
(`activate`) and the start/stop menu handlers never write the record.
Concrete failing transition: a successful start toggle from the stopped
state performs no persisted-state write. -/
theorem C8_toggle_writes_nothing :
    (tray_activate ⟨⟨false, "base.en", false⟩, "whisper-cpp"⟩ true).2 = [TEvent.startProc]
    ∧ ((tray_activate ⟨⟨false, "base.en", false⟩, "whisper-cpp"⟩ true).2.countP
        TEvent.isWriteState) = 0 := by
  decide

/-- C8 (amended): the persisted state record is written at tray construction
and on every backend switch that is not aborted (recording the unchanged
model and the new backend identity, before the new daemon starts); the
start, stop and toggle transitions perform no persisted-state write and
leave the record from construction or the last switch in place. -/
theorem C8_persisted_state_writes (t : TrayModel) (daemonType resolvedModel : String)
    (opOk stopOk startOk : Bool)
    (hnotaborted : t.status.running = false ∨ stopOk = true) :
    (tray_new daemonType resolvedModel).2 = [TEvent.writeState resolvedModel daemonType]
    ∧ ((tray_activate t opOk).2.countP TEvent.isWriteState) = 0
    ∧ TEvent.writeState t.status.model (other_backend t.daemonType)
        ∈ (tray_switch_backend t stopOk startOk).2 := by
  refine ⟨rfl, ?_, ?_⟩
  · unfold tray_activate
    split <;> split <;> simp [TEvent.isWriteState]
  · have habort : (t.status.running && !stopOk) = false := by
      rcases hnotaborted with h | h <;> simp [h]
    unfold tray_switch_backend
    rw [habort]
    simp only [Bool.false_eq_true, if_false, List.mem_append, List.mem_cons, save_state]
    refine Or.inr (Or.inl ?_)
    split <;> rfl

/-- Witness for C8's amended theorem: a running tray whose stop succeeds. -/
theorem C8_persisted_state_writes_witness :
    (tray_new "whisper-cpp" "base.en").2 = [TEvent.writeState "base.en" "whisper-cpp"]
    ∧ ((tray_activate ⟨⟨true, "base.en", false⟩, "whisper-cpp"⟩ true).2.countP
        TEvent.isWriteState) = 0
    ∧ TEvent.writeState "base.en" (other_backend "whisper-cpp")
        ∈ (tray_switch_backend ⟨⟨true, "base.en", false⟩, "whisper-cpp"⟩ true true).2 :=
  C8_persisted_state_writes ⟨⟨true, "base.en", false⟩, "whisper-cpp"⟩
    "whisper-cpp" "base.en" true true true (Or.inr rfl)

/-! ### WAV-to-samples conversion (src/helpers.rs `wav_to_samples`, lines 15-32)

The Rust code computes `i16::from_le_bytes([b0, b1]) as f32 / i16::MAX as f32`.
Every `i16` is exactly representable in `f32`, and `i16::MAX = 32767`; the
division is modelled exactly in `ℚ` (the f32 rounding of the quotient is far
smaller than the distance of any bound considered here). -/

def i16_from_le_bytes (b0 b1 : Nat) : Int :=
  if b0 + 256 * b1 < 32768 then (b0 + 256 * b1 : Int)
  else (b0 + 256 * b1 : Int) - 65536

/-- Rust `chunks_exact(2)`: a trailing odd byte is discarded. -/
def chunks_exact_2 : List Nat → List (Nat × Nat)
  | b0 :: b1 :: rest => (b0, b1) :: chunks_exact_2 rest
  | _ => []

def wav_to_samples (wavData : List Nat) : Except String (List ℚ) :=
  if wavData.length < 44 then .error "Invalid WAV file: too short"
  else .ok ((chunks_exact_2 (wavData.drop 44)).map
    (fun p => (i16_from_le_bytes p.1 p.2 : ℚ) / 32767))

lemma chunks_exact_2_mem : ∀ (l : List Nat) (p : Nat × Nat),
    p ∈ chunks_exact_2 l → p.1 ∈ l ∧ p.2 ∈ l
  | [], p, h => by simp [chunks_exact_2] at h
  | [b], p, h => by simp [chunks_exact_2] at h
  | b0 :: b1 :: rest, p, h => by
    simp only [chunks_exact_2, List.mem_cons] at h
    rcases h with rfl | h
    · exact ⟨List.mem_cons_self _ _, List.mem_cons_of_mem _ (List.mem_cons_self _ _)⟩
    · have ih := chunks_exact_2_mem rest p h
      exact ⟨List.mem_cons_of_mem _ (List.mem_cons_of_mem _ ih.1),
             List.mem_cons_of_mem _ (List.mem_cons_of_mem _ ih.2)⟩

lemma i16_from_le_bytes_bounds {b0 b1 : Nat} (h0 : b0 < 256) (h1 : b1 < 256) :
    -32768 ≤ i16_from_le_bytes b0 b1 ∧ i16_from_le_bytes b0 b1 ≤ 32767 := by
  unfold i16_from_le_bytes
  split <;> constructor <;> omega

/-- C9: the claim states that every produced sample lies in `[-1, 1]`,
including the sample decoded from the minimum 16-bit value `-32768`.  It
fails: the code divides by `i16::MAX = 32767`, so `-32768` maps to
`-32768/32767 ≈ -1.00003 < -1`.  Concrete failing input: a 44-byte header
followed by the little-endian bytes `[0x00, 0x80]` (= `-32768`). -/
theorem C9_min_sample_below_neg_one :
    wav_to_samples (List.replicate 44 0 ++ [0, 128])
      = .ok [(-32768 : ℚ) / 32767]
    ∧ ((-32768 : ℚ) / 32767 < -1) := by
  constructor
  · show Except.ok _ = _
    norm_num [wav_to_samples, chunks_exact_2, i16_from_le_bytes, List.replicate]
  · norm_num

/-- C9 (amended): every produced sample equals the corresponding
little-endian signed 16-bit value divided by `i16::MAX = 32767`, and lies in
`[-32768/32767, 1]`; samples decoded from values at least `-32767` lie in
`[-1, 1]`, but the sample decoded from `-32768` equals `-32768/32767 < -1`. -/
theorem C9_sample_bounds_amended (wavData : List Nat)
    (hbytes : ∀ b ∈ wavData, b < 256) (hlen : 44 ≤ wavData.length) :
    wav_to_samples wavData
      = .ok ((chunks_exact_2 (wavData.drop 44)).map
          (fun p => (i16_from_le_bytes p.1 p.2 : ℚ) / 32767))
    ∧ ∀ s ∈ (chunks_exact_2 (wavData.drop 44)).map
          (fun p => (i16_from_le_bytes p.1 p.2 : ℚ) / 32767),
        (-32768 : ℚ) / 32767 ≤ s ∧ s ≤ 1 := by
  have hnl : ¬ wavData.length < 44 := by omega
  refine ⟨by simp [wav_to_samples, hnl], ?_⟩
  intro s hs
  simp only [List.mem_map] at hs
  obtain ⟨p, hp, rfl⟩ := hs
  have hmem := chunks_exact_2_mem _ p hp
  have h0 : p.1 < 256 := hbytes p.1 (List.drop_subset 44 wavData hmem.1)
  have h1 : p.2 < 256 := hbytes p.2 (List.drop_subset 44 wavData hmem.2)
  have hb := i16_from_le_bytes_bounds h0 h1
  constructor
  · apply div_le_div_of_nonneg_right ?_ ?_ |>.trans_eq rfl
    · exact_mod_cast hb.1
    · norm_num
  · rw [div_le_one (by norm_num : (0 : ℚ) < 32767)]
    exact_mod_cast hb.2

/-- Witness for C9's amended theorem: header plus the samples `-32768` and
`32767`. -/
theorem C9_sample_bounds_amended_witness :
    wav_to_samples (List.replicate 44 0 ++ [0, 128, 255, 127])
      = .ok ((chunks_exact_2 ((List.replicate 44 0 ++ [0, 128, 255, 127]).drop 44)).map
          (fun p => (i16_from_le_bytes p.1 p.2 : ℚ) / 32767))
    ∧ ∀ s ∈ (chunks_exact_2 ((List.replicate 44 0 ++ [0, 128, 255, 127]).drop 44)).map
          (fun p => (i16_from_le_bytes p.1 p.2 : ℚ) / 32767),
        (-32768 : ℚ) / 32767 ≤ s ∧ s ≤ 1 :=
  C9_sample_bounds_amended (List.replicate 44 0 ++ [0, 128, 255, 127])
    (by decide) (by decide)

/-! ### Recording lifecycle tracker (src/recording.rs `stop_recording`, lines 7-82)

Shallow embedding: the PID marker file content, the two liveness probes
(`is_process_running` before signalling and after SIGINT), and the
audio-path marker content are the world; the function returns its result and
the ordered trace of file removals, signals and copies it performs.
`parse_u32` models `str::parse::<u32>` on the digit-only strings the tracker
writes. -/

structure RecWorld where
  pidfileContent : Option String
  runningInitial : Nat → Bool
  runningAfterInt : Nat → Bool
  audioMarker : Option String
  uid : Nat
  overrideTemp : String
  copyOk : Bool

inductive REvent
  | removeFile (path : String)
  | signalProc (pid : Nat) (sig : String)
  | copyFile (src dst : String)
deriving DecidableEq

def pidfile_path : String := "/tmp/whisp-away-recording.pid"

def marker_path (uid : Nat) : String :=
  "/run/user/" ++ toString uid ++ "/voice-audio-file.tmp"

def trimS (s : String) : String := ⟨trimChars s.toList⟩

def parse_u32 (s : List Char) : Option Nat :=
  if s.isEmpty then none
  else if s.all Char.isDigit then
    let v := s.foldl (fun a c => a * 10 + (c.toNat - 48)) 0
    if v < 4294967296 then some v else none
  else none

/-- recording.rs lines 56-79: resolve the artifact path — copy the override
into a disposable location, or read and remove the audio-path marker. -/
def resolve_artifact (w : RecWorld) (ov : Option String) (evs : List REvent) :
    Except String (Option String) × List REvent :=
  match ov with
  | some op =>
    if w.copyOk then (.ok (some w.overrideTemp), evs ++ [.copyFile op w.overrideTemp])
    else (.error "Failed to copy audio file to temporary location", evs)
  | none =>
    match w.audioMarker with
    | some content =>
      (.ok (some (trimS content)), evs ++ [.removeFile (marker_path w.uid)])
    | none => (.ok none, evs)

/-- recording.rs `stop_recording` (lines 7-82). -/
def stop_recording (w : RecWorld) (ov : Option String) :
    Except String (Option String) × List REvent :=
  match w.pidfileContent with
  | some content =>
    if trimS content = "" then (.ok none, [.removeFile pidfile_path])
    else
      match parse_u32 (trimS content).toList with
      | some pid =>
        if !w.runningInitial pid then
          (.ok none, [.removeFile pidfile_path, .removeFile (marker_path w.uid)])
        else
          resolve_artifact w ov
            ([REvent.signalProc pid "SIGINT"]
              ++ (if w.runningAfterInt pid then [REvent.signalProc pid "SIGTERM"] else [])
              ++ [REvent.removeFile pidfile_path])
      | none => resolve_artifact w ov [.removeFile pidfile_path]
  | none => resolve_artifact w ov [.removeFile pidfile_path]

/-- C10: if the PID marker names a process that is no longer running,
`stop_recording` removes the PID marker and the audio-path marker and
returns `None` ("no artifact") — performing nothing else: no signal is sent,
the recorded audio file itself is never read, returned or deleted, whatever
the audio-path marker names, so a capture that exited on its own yields no
transcription and its audio is silently abandoned. -/
theorem C10_dead_recorder_abandons_audio (w : RecWorld) (ov : Option String)
    (pid : Nat) (content : String)
    (hp : w.pidfileContent = some content)
    (hne : trimS content ≠ "")
    (hparse : parse_u32 (trimS content).toList = some pid)
    (hdead : w.runningInitial pid = false) :
    stop_recording w ov
      = (.ok none, [.removeFile pidfile_path, .removeFile (marker_path w.uid)]) := by
  unfold stop_recording
  rw [hp]
  have hparse' : parse_u32 (trimS content).data = some pid := hparse
  simp [hne, hparse', hdead]

/-- A dead-recorder world for C10's witness: the PID marker names process
4321 (not running), while the audio-path marker still names a recorded
file. -/
def deadRecorderWorld : RecWorld :=
  { pidfileContent := some "4321"
    runningInitial := fun _ => false
    runningAfterInt := fun _ => false
    audioMarker := some "/run/user/1000/voice-recording-170.wav"
    uid := 1000
    overrideTemp := "/run/user/1000/voice-recording-override-0.wav"
    copyOk := true }

/-- Witness for C10 at `deadRecorderWorld`. -/
theorem C10_dead_recorder_abandons_audio_witness :
    stop_recording deadRecorderWorld none
      = (.ok none, [.removeFile pidfile_path, .removeFile (marker_path 1000)]) :=
  C10_dead_recorder_abandons_audio deadRecorderWorld none 4321 "4321"
    rfl (by decide) (by decide) rfl

end WhispAway
